import Mathlib

/-!
# Board configuration header of the Waveshare RP2040-Touch-LCD-1.28 port

Embedding of `src/script_heredoc_templates/rp2040/board/mpconfigboard.h`.
The header consists of a block of documentation comments and two
preprocessor definitions:

* line 5: `// Board config for Waveshare RP2040-Touch-LCD-1.28`
* line 6: `// Total flash: 2048 KB`
* line 7: `// Reserve 1024 KB for firmware and 1024 KB for filesystem.`
* line 9: `#define MICROPY_HW_BOARD_NAME "Waveshare RP2040-Touch-LCD-1.28"`
* line 10: `#define MICROPY_HW_FLASH_STORAGE_BYTES (1024 * 1024)`

The two macros are embedded as constants, the figures of the comments as
separate constants, and the C evaluation of the product as arithmetic on
`Int` with an explicit representability test for a signed `int` of `w` bits.
-/

namespace MpConfigBoard

/-! ## The two macros -/

/-- Line 9 of the header: the board name string literal. -/
def MICROPY_HW_BOARD_NAME : String := "Waveshare RP2040-Touch-LCD-1.28"

/-- Line 10 of the header: the filesystem slice, the exact value of the
integer expression `(1024 * 1024)`. -/
def MICROPY_HW_FLASH_STORAGE_BYTES : Nat := (1024 * 1024)

/-! ## The figures of the documentation comments (lines 5 to 7) -/

/-- Line 5 of the header, without the comment marker. -/
def docBoardLine : String := "Board config for Waveshare RP2040-Touch-LCD-1.28"

/-- The words of line 5 that precede the hardware variant. -/
def docBoardLead : String := "Board config for "

/-- The hardware variant named by line 5: the text after the leading words. -/
def docHardwareVariant : String := docBoardLine.drop docBoardLead.length

/-- Bytes in one KB, as the header counts them. -/
def KB : Nat := 1024

/-- Line 6 of the header: `Total flash: 2048 KB`. -/
def docTotalFlashKB : Nat := 2048

/-- Line 7 of the header: `Reserve 1024 KB for firmware`. -/
def docFirmwareKB : Nat := 1024

/-- Line 7 of the header: `and 1024 KB for filesystem`. -/
def docFilesystemKB : Nat := 1024

/-- Total physical flash in bytes, from line 6. -/
def total_flash_bytes : Nat := docTotalFlashKB * KB

/-- Flash reserved for the firmware in bytes, from line 7. -/
def firmware_reserved_bytes : Nat := docFirmwareKB * KB

/-! ## C evaluation of the macro body in type `int` -/

/-- Whether `v` is representable in a signed two's complement `int` of `w` bits. -/
def intFits (w : Nat) (v : Int) : Bool :=
  decide (-(2 : Int) ^ (w - 1) ≤ v) && decide (v < (2 : Int) ^ (w - 1))

/-- Signed multiplication in an `int` of `w` bits: the exact product when it is
representable, `none` when the multiplication overflows. -/
def intMul (w : Nat) (a b : Int) : Option Int :=
  if intFits w (a * b) then some (a * b) else none

/-- The product of two values reduced modulo `2 ^ w`. -/
def wrapMul (w : Nat) (a b : Nat) : Nat := (a * b) % 2 ^ w

/-- The body `(1024 * 1024)` of `MICROPY_HW_FLASH_STORAGE_BYTES` evaluated as a
product of two `int` literals on a target whose `int` has `w` bits. -/
def flashStorageBytesInt (w : Nat) : Option Int := intMul w 1024 1024

/-- The body `(1024 * 1024)` with the product wrapped to `w` bits. -/
def flashStorageBytesWrapped (w : Nat) : Nat := wrapMul w 1024 1024

/-! ## Supporting lemmas -/

theorem flash_storage_bytes_eq_pow : MICROPY_HW_FLASH_STORAGE_BYTES = 2 ^ 20 := by
  decide

theorem pow_dvd_flash_storage_bytes (k : Nat) (hk : k ≤ 20) :
    2 ^ k ∣ MICROPY_HW_FLASH_STORAGE_BYTES := by
  rw [flash_storage_bytes_eq_pow]
  exact pow_dvd_pow 2 hk

/-- The units that divide the filesystem slice are exactly the powers of two
up to `2 ^ 20`. -/
theorem flash_storage_bytes_mod_eq_zero_iff (U : Nat) :
    MICROPY_HW_FLASH_STORAGE_BYTES % U = 0 ↔ ∃ k, k ≤ 20 ∧ U = 2 ^ k := by
  rw [← Nat.dvd_iff_mod_eq_zero, flash_storage_bytes_eq_pow]
  exact Nat.dvd_prime_pow Nat.prime_two

/-- The product `1024 * 1024` is representable in an `int` of `w` bits exactly
when `w` is at least 22. -/
theorem intFits_product_iff (w : Nat) :
    intFits w (1024 * 1024) = true ↔ 22 ≤ w := by
  have key : ((2 : Int) ^ 20 < (2 : Int) ^ (w - 1)) ↔ 22 ≤ w := by
    rw [pow_lt_pow_iff_right₀ (by norm_num : (1 : Int) < 2)]
    omega
  have hpos : (0 : Int) < (2 : Int) ^ (w - 1) := by positivity
  have h20 : ((1024 : Int) * 1024) = (2 : Int) ^ 20 := by norm_num
  unfold intFits
  rw [Bool.and_eq_true, decide_eq_true_eq, decide_eq_true_eq, h20, key]
  constructor
  · exact fun h => h.2
  · intro h
    refine ⟨?_, h⟩
    have : (0 : Int) < (2 : Int) ^ 20 := by positivity
    omega

/-- The macro body evaluated in an `int` of `w` bits: the exact value from 22
bits on, an overflow below. -/
theorem flashStorageBytesInt_eq (w : Nat) :
    flashStorageBytesInt w = if 22 ≤ w then some 1048576 else none := by
  unfold flashStorageBytesInt intMul
  by_cases h : 22 ≤ w
  · rw [if_pos ((intFits_product_iff w).mpr h), if_pos h]
    norm_num
  · have hf : ¬ (intFits w (1024 * 1024) = true) := fun hc => h ((intFits_product_iff w).mp hc)
    rw [if_neg hf, if_neg h]

/-! ## The claims -/

/-- C1: the constant `MICROPY_HW_FLASH_STORAGE_BYTES`, defined as the integer
expression `(1024 * 1024)`, is exactly 1,048,576, which is `2 ^ 20`. -/
theorem C1_flash_storage_bytes_value :
    MICROPY_HW_FLASH_STORAGE_BYTES = 1024 * 1024 ∧
    MICROPY_HW_FLASH_STORAGE_BYTES = 1048576 ∧
    MICROPY_HW_FLASH_STORAGE_BYTES = 2 ^ 20 := by
  refine ⟨rfl, ?_, ?_⟩ <;> decide

/-- C2: the constant `MICROPY_HW_BOARD_NAME` is a non-empty string, it is
exactly `Waveshare RP2040-Touch-LCD-1.28`, and it is verbatim the hardware
variant named by the documentation comment of the header. -/
theorem C2_board_name_value :
    MICROPY_HW_BOARD_NAME ≠ "" ∧
    0 < MICROPY_HW_BOARD_NAME.length ∧
    MICROPY_HW_BOARD_NAME = "Waveshare RP2040-Touch-LCD-1.28" ∧
    docBoardLine = docBoardLead ++ MICROPY_HW_BOARD_NAME ∧
    MICROPY_HW_BOARD_NAME = docHardwareVariant := by
  refine ⟨?_, ?_, rfl, ?_, ?_⟩ <;> decide

/-- C3: with 1024 KB reserved for the firmware and 2048 KB of flash in total,
the filesystem slice plus the firmware reservation does not exceed the total
flash. -/
theorem C3_slice_fits_flash_budget :
    firmware_reserved_bytes = 1024 * 1024 ∧
    total_flash_bytes = 2048 * 1024 ∧
    MICROPY_HW_FLASH_STORAGE_BYTES + firmware_reserved_bytes ≤ total_flash_bytes ∧
    MICROPY_HW_FLASH_STORAGE_BYTES ≤ total_flash_bytes - firmware_reserved_bytes := by
  refine ⟨?_, ?_, ?_, ?_⟩ <;> decide

/-- C4: the documented split is an exact partition of the flash: the 1024 KB
of the firmware plus the filesystem slice is exactly the 2048 KB total, and
the slice is the 1024 KB the comment gives to the filesystem. -/
theorem C4_split_is_exact_partition :
    1024 * 1024 + MICROPY_HW_FLASH_STORAGE_BYTES = 2048 * 1024 ∧
    firmware_reserved_bytes + MICROPY_HW_FLASH_STORAGE_BYTES = total_flash_bytes ∧
    total_flash_bytes - (firmware_reserved_bytes + MICROPY_HW_FLASH_STORAGE_BYTES) = 0 ∧
    MICROPY_HW_FLASH_STORAGE_BYTES = docFilesystemKB * KB ∧
    docFirmwareKB + docFilesystemKB = docTotalFlashKB := by
  refine ⟨?_, ?_, ?_, ?_, ?_⟩ <;> decide

/-- C5: the filesystem slice is strictly smaller than the 2048 KB of physical
flash, so the remainder left for the firmware is strictly positive. -/
theorem C5_slice_lt_total_flash :
    MICROPY_HW_FLASH_STORAGE_BYTES < 2048 * 1024 ∧
    MICROPY_HW_FLASH_STORAGE_BYTES < total_flash_bytes ∧
    0 < total_flash_bytes - MICROPY_HW_FLASH_STORAGE_BYTES := by
  refine ⟨?_, ?_, ?_⟩ <;> decide

/-- C6: for an erase or allocation unit `U` of the flash-storage subsystem that
is a power of two not larger than `2 ^ 20`, the filesystem slice is a multiple
of `U`, that is `MICROPY_HW_FLASH_STORAGE_BYTES mod U = 0`. -/
theorem C6_slice_multiple_of_unit (U k : Nat) (hk : k ≤ 20) (hU : U = 2 ^ k) :
    MICROPY_HW_FLASH_STORAGE_BYTES % U = 0 := by
  subst hU
  exact Nat.mod_eq_zero_of_dvd (pow_dvd_flash_storage_bytes k hk)

/-- Witness of C6 at the 4096-byte sector, `U = 2 ^ 12`. -/
theorem C6_slice_multiple_of_unit_witness :
    (12 ≤ 20) ∧ (4096 = 2 ^ 12) ∧ MICROPY_HW_FLASH_STORAGE_BYTES % 4096 = 0 :=
  ⟨by decide, by decide, C6_slice_multiple_of_unit 4096 12 (by decide) (by decide)⟩

/-- C7: evaluated as a product of two `int` literals on a target with 32-bit
`int`, `(1024 * 1024)` does not overflow, since the product is below `2 ^ 31`,
and its value wrapped to 32 bits is the exact value 1,048,576; with a 16-bit
`int` the product is not representable, since `2 ^ 20` is at least `2 ^ 15`. -/
theorem C7_product_fits_int32 :
    MICROPY_HW_FLASH_STORAGE_BYTES < 2 ^ 31 ∧
    flashStorageBytesInt 32 = some (MICROPY_HW_FLASH_STORAGE_BYTES : Int) ∧
    flashStorageBytesWrapped 32 = MICROPY_HW_FLASH_STORAGE_BYTES ∧
    (1024 * 1024) % 2 ^ 32 = 1048576 ∧
    intFits 16 1024 = true ∧
    flashStorageBytesInt 16 = none ∧
    2 ^ 15 ≤ MICROPY_HW_FLASH_STORAGE_BYTES := by
  refine ⟨by decide, ?_, by decide, by decide, by decide, ?_, by decide⟩
  · rw [flashStorageBytesInt_eq 32]
    decide
  · rw [flashStorageBytesInt_eq 16]
    decide

end MpConfigBoard
